import Mathlib

/-
Verification of the action-orchestration core of senlin
(src/senlin/engine/action.py): the Action entity and its subtypes, the
policy-check pipeline, cluster-action orchestration (create / update /
delete / scale-down / attach-policy), and node-action execution.

External collaborators (database api, dispatcher, scheduler, policy and
node implementations, request context) are not part of src/; where their
behaviour matters they are modelled from the spec and marked as such.
-/

deriving instance DecidableEq for Except

namespace Senlin

/-- Python values stored in the inputs/outputs dictionaries of an action. -/
inductive Val where
  | str (s : String)
  | nat (n : Nat)
  | bool (b : Bool)
  | null
deriving DecidableEq, Repr

/-- Python truthiness for a stored value: None, empty string, 0 and False
are falsy. -/
def Val.truthy : Val → Bool
  | .str s => !(s == "")
  | .nat n => !(n == 0)
  | .bool b => b
  | .null => false

/-- A Python keyword dictionary for inputs/outputs. -/
def Inputs := List (String × Val)
deriving DecidableEq, Repr

/-- dict.get(key, None): the stored value, or None when the key is absent. -/
def Inputs.get (i : Inputs) (k : String) : Val :=
  match List.lookup k i with
  | some v => v
  | none => .null

/-- Exceptions raised by the code under verification (senlin.common.exception
plus the Python built-in AttributeError). -/
inductive PyErr where
  | attributeError (attr : String)
  | actionNotSupported (action : String)
  | actionMissingTarget (action : String)
  | actionMissingPolicy (action : String)
  | policyNotSpecified
  | policyExists (policy_type : String)
  | clusterNotSpecified
  | notFound (msg : String)
  | engineError (msg : String)
deriving DecidableEq, Repr

/-- Modelled from the spec: senlin.common.context.RequestContext is not under
src/. The spec only requires that the owning context records the caller
identity and is serializable for cross-worker handoff. -/
structure RequestContext where
  user : String
deriving DecidableEq, Repr

/-- The plain-dict serialization of a RequestContext. -/
structure CtxDict where
  user : String
deriving DecidableEq, Repr

def RequestContext.to_dict (c : RequestContext) : CtxDict := ⟨c.user⟩

def RequestContext.from_dict (d : CtxDict) : RequestContext := ⟨d.user⟩

/-- The value bound to a context parameter at run time: either a live
RequestContext object or a plain serialized dict (as produced by to_dict). -/
inductive CtxVal where
  | obj (c : RequestContext)
  | dict (d : CtxDict)
deriving DecidableEq, Repr

/-- The attribute call context.to_dict(): only RequestContext objects carry
the to_dict method; on a plain dict the lookup raises AttributeError. -/
def CtxVal.to_dict_call : CtxVal → Except PyErr CtxDict
  | .obj c => .ok c.to_dict
  | .dict _ => .error (.attributeError "to_dict")

/-- Action.RETURNS (action.py 35-39). -/
def Action.RES_OK : String := "OK"

def Action.RES_ERROR : String := "ERROR"

def Action.RES_RETRY : String := "RETRY"

def Action.RES_CANCEL : String := "CANCEL"

def Action.RES_TIMEOUT : String := "TIMEOUT"

/-- Action.STATUSES (action.py 49-55). Note that the class attribute bound to
the string value CANCELLED is spelled CANCELED (single L); no attribute
named CANCELLED exists on the class. -/
def Action.INIT : String := "INIT"

def Action.WAITING : String := "WAITING"

def Action.READY : String := "READY"

def Action.RUNNING : String := "RUNNING"

def Action.SUCCEEDED : String := "SUCCEEDED"

def Action.FAILED : String := "FAILED"

def Action.CANCELED : String := "CANCELLED"

/-- Modelled from the spec: cfg.CONF.default_action_timeout (oslo config, not
under src/); the concrete value is irrelevant to every claim. -/
def default_action_timeout : Nat := 3600

/-- The keyword arguments accepted by Action.__init__, with the defaults the
code supplies through kwargs.get. -/
structure ActionKwargs where
  id : String := ""
  name : String := ""
  description : String := ""
  target : Option String := none
  cause : String := ""
  owner : Option String := none
  interval : Int := -1
  start_time : Option String := none
  end_time : Option String := none
  timeout : Option Nat := none
  status : Option String := none
  status_reason : String := ""
  inputs : Inputs := []
  outputs : Inputs := []
  depends_on : List String := []
  depended_by : List String := []
  cluster_id : Option String := none
  policy_id : Option String := none
deriving DecidableEq, Repr

/-- The in-memory attributes of a constructed action (Action.__init__,
action.py 73-130). -/
structure ActionRec where
  id : String
  name : String
  context : RequestContext
  description : String
  target : String
  action : String
  cause : String
  owner : Option String
  interval : Int
  start_time : Option String
  end_time : Option String
  timeout : Nat
  status : String
  status_reason : String
  inputs : Inputs
  outputs : Inputs
  depends_on : List String
  depended_by : List String
  deleted_time : Option String
  cluster_id : Option String := none
  policy_id : Option String := none
deriving DecidableEq, Repr

/-- ClusterAction.ACTIONS (action.py 343-353). -/
def ClusterAction.ACTIONS : List String :=
  ["CLUSTER_CREATE", "CLUSTER_DELETE", "CLUSTER_UPDATE",
   "CLUSTER_ADD_NODES", "CLUSTER_DEL_NODES",
   "CLUSTER_SCALE_UP", "CLUSTER_SCALE_DOWN",
   "CLUSTER_ATTACH_POLICY", "CLUSTER_DETACH_POLICY"]

/-- NodeAction.ACTIONS (action.py 793-799). -/
def NodeAction.ACTIONS : List String :=
  ["NODE_CREATE", "NODE_DELETE", "NODE_UPDATE",
   "NODE_JOIN_CLUSTER", "NODE_LEAVE_CLUSTER"]

/-- PolicyAction.ACTIONS (action.py 841-845). -/
def PolicyAction.ACTIONS : List String :=
  ["POLICY_ENABLE", "POLICY_DISABLE", "POLICY_UPDATE"]

/-- CustomAction.ACTIONS (action.py 894-898). -/
def CustomAction.ACTIONS : List String :=
  ["ACTION_EXECUTE"]

/-- Embeds Action.__init__ (action.py 73-130), with ACTIONS the verb set of
the concrete subtype. When the verb is outside ACTIONS the code raises
ActionNotSupported, but while formatting its message it evaluates
self.target, which is first assigned only later in __init__; the attribute
lookup therefore raises AttributeError. The context argument is converted
via context.to_dict() before the target check. -/
def Action.init (ACTIONS : List String) (context : CtxVal) (action : String)
    (kwargs : ActionKwargs) : Except PyErr ActionRec :=
  if action ∈ ACTIONS then
    match context.to_dict_call with
    | .error e => .error e
    | .ok ctxd =>
      match kwargs.target with
      | none => .error (.actionMissingTarget action)
      | some target =>
        .ok { id := kwargs.id, name := kwargs.name,
              context := RequestContext.from_dict ctxd,
              description := kwargs.description, target := target,
              action := action, cause := kwargs.cause, owner := kwargs.owner,
              interval := kwargs.interval, start_time := kwargs.start_time,
              end_time := kwargs.end_time,
              timeout := kwargs.timeout.getD default_action_timeout,
              status := kwargs.status.getD Action.INIT,
              status_reason := kwargs.status_reason, inputs := kwargs.inputs,
              outputs := kwargs.outputs, depends_on := kwargs.depends_on,
              depended_by := kwargs.depended_by, deleted_time := none }
  else
    .error (.attributeError "target")

/-- ClusterAction.__init__ (action.py 355-356) just delegates to the base
constructor with the cluster verb set. -/
def ClusterAction.init (context : CtxVal) (action : String)
    (kwargs : ActionKwargs) : Except PyErr ActionRec :=
  Action.init ClusterAction.ACTIONS context action kwargs

/-- NodeAction.__init__ (action.py 801-802). -/
def NodeAction.init (context : CtxVal) (action : String)
    (kwargs : ActionKwargs) : Except PyErr ActionRec :=
  Action.init NodeAction.ACTIONS context action kwargs

/-- CustomAction.__init__ (action.py 900-901). -/
def CustomAction.init (context : CtxVal) (action : String)
    (kwargs : ActionKwargs) : Except PyErr ActionRec :=
  Action.init CustomAction.ACTIONS context action kwargs

/-- PolicyAction.__init__ (action.py 847-855): base construction first, then
cluster_id and policy_id are required. -/
def PolicyAction.init (context : CtxVal) (action : String)
    (kwargs : ActionKwargs) : Except PyErr ActionRec :=
  match Action.init PolicyAction.ACTIONS context action kwargs with
  | .error e => .error e
  | .ok a =>
    match kwargs.cluster_id with
    | none => .error (.actionMissingTarget action)
    | some cid =>
      match kwargs.policy_id with
      | none => .error (.actionMissingPolicy action)
      | some pid => .ok { a with cluster_id := some cid, policy_id := some pid }

/-- The category component examined by Action.__new__ (action.py 61):
action.split('_')[0], i.e. the characters before the first underscore. -/
def actionTargetType (action : String) : String :=
  ⟨action.toList.takeWhile (fun c => !(c == '_'))⟩

/-- The verb set of the subtype Action.__new__ dispatches to
(action.py 57-71). -/
def Action.subtype_actions (action : String) : List String :=
  if actionTargetType action == "CLUSTER" then ClusterAction.ACTIONS
  else if actionTargetType action == "NODE" then NodeAction.ACTIONS
  else if actionTargetType action == "POLICY" then PolicyAction.ACTIONS
  else CustomAction.ACTIONS

/-- Embeds the factory Action(context, action, ...) (action.py 57-71):
dispatch on the first underscore-separated component of the verb, then run
the chosen subtype constructor. -/
def Action.make (context : CtxVal) (action : String) (kwargs : ActionKwargs) :
    Except PyErr ActionRec :=
  if actionTargetType action == "CLUSTER" then
    ClusterAction.init context action kwargs
  else if actionTargetType action == "NODE" then
    NodeAction.init context action kwargs
  else if actionTargetType action == "POLICY" then
    PolicyAction.init context action kwargs
  else CustomAction.init context action kwargs

/-- Durable-store writes issued by Action.set_status. -/
inductive DbOp where
  | mark_succeeded (id : String)
  | mark_failed (id : String)
  | mark_cancelled (id : String)
deriving DecidableEq, Repr

/-- Embeds Action.set_status (action.py 233-245). The first two branches mark
the record succeeded/failed and update the local field. The third branch
compares status against self.CANCELLED; the class only defines the attribute
CANCELED (whose value is the string CANCELLED), so whenever the first two
comparisons are false the attribute lookup raises AttributeError before the
local field is updated. -/
def ActionRec.set_status (a : ActionRec) (status : String) :
    Except PyErr (ActionRec × List DbOp) :=
  if status == Action.SUCCEEDED then
    .ok ({ a with status := status }, [.mark_succeeded a.id])
  else if status == Action.FAILED then
    .ok ({ a with status := status }, [.mark_failed a.id])
  else
    .error (.attributeError "CANCELLED")

/-- The transport map produced by Action.to_dict (action.py 310-332); the
context entry is the plain serialized dict. -/
structure ActionDict where
  id : String
  name : String
  action : String
  context : CtxDict
  target : String
  cause : String
  owner : Option String
  interval : Int
  start_time : Option String
  end_time : Option String
  timeout : Nat
  status : String
  status_reason : String
  inputs : Inputs
  outputs : Inputs
  depends_on : List String
  depended_by : List String
  deleted_time : Option String
deriving DecidableEq, Repr

/-- Embeds Action.to_dict (action.py 310-332). -/
def ActionRec.to_dict (a : ActionRec) : ActionDict :=
  { id := a.id, name := a.name, action := a.action,
    context := a.context.to_dict, target := a.target, cause := a.cause,
    owner := a.owner, interval := a.interval, start_time := a.start_time,
    end_time := a.end_time, timeout := a.timeout, status := a.status,
    status_reason := a.status_reason, inputs := a.inputs,
    outputs := a.outputs, depends_on := a.depends_on,
    depended_by := a.depended_by, deleted_time := a.deleted_time }

/-- Embeds Action.from_dict (action.py 334-336) applied to a serialized map:
the context entry of the map binds the context parameter and is forwarded,
still a plain dict, to the constructor dispatched by the factory. -/
def Action.from_dict (d : ActionDict) : Except PyErr ActionRec :=
  Action.make (.dict d.context) d.action
    { id := d.id, name := d.name, target := some d.target, cause := d.cause,
      owner := d.owner, interval := d.interval, start_time := d.start_time,
      end_time := d.end_time, timeout := some d.timeout,
      status := some d.status, status_reason := d.status_reason,
      inputs := d.inputs, outputs := d.outputs, depends_on := d.depends_on,
      depended_by := d.depended_by }

/-- The outcome markers of the policy collaborator (succeed / fail / retry;
spec section 6, senlin.policies.base is not under src/). -/
inductive CheckMarker where
  | succeed
  | fail
  | retry
deriving DecidableEq, Repr

/-- The shared mutable result record threaded through the policy-check loop:
the data dict seeded with a success marker; count and candidates are the
scale-down outputs a hook may add. -/
structure CheckData where
  result : CheckMarker
  count : Option Nat := none
  candidates : List String := []
deriving DecidableEq, Repr

/-- Modelled from the spec: the policy collaborator (senlin.policies.base is
not under src/) exposes id, type, cooldown, level, a TARGET set of
(phase, operation) pairs and pre_op/post_op hooks. Hook behaviour is
external, so each hook is a script of successive return values consumed one
per invocation. -/
structure Policy where
  id : String
  ptype : String
  cooldown : Nat := 0
  level : Nat := 0
  TARGET : List (String × String) := []
  pre_script : List CheckData := []
  post_script : List CheckData := []
deriving DecidableEq, Repr

/-- One hook invocation on a policy: BEFORE pops the pre_op script, AFTER the
post_op script, any other phase leaves the data unchanged (the source's
final else branch). Returns the hook result and the policy with the
consumed script. -/
def Policy.invoke (p : Policy) (phase : String) (data : CheckData) :
    CheckData × Policy :=
  if phase == "BEFORE" then
    match p.pre_script with
    | [] => (data, p)
    | d :: rest => (d, { p with pre_script := rest })
  else if phase == "AFTER" then
    match p.post_script with
    | [] => (data, p)
    | d :: rest => (d, { p with post_script := rest })
  else (data, p)

/-- The value returned by Action.policy_check: False on a failed check,
otherwise the accumulated data dict. -/
inductive CheckResult where
  | failed
  | ok (d : CheckData)
deriving DecidableEq, Repr

/-- A cluster-policy association row (db_api.cluster_get_policies; modelled
from the spec's PolicyAssociation: policy id, cooldown, priority level,
enabled flag). -/
structure PolicyAssoc where
  policy_id : String
  enabled : Bool
  cooldown : Nat := 0
  level : Nat := 0
deriving DecidableEq, Repr

/-- The persistence collaborator's policy tables: cluster id to association
rows, and policy id to policy object (policies.load). -/
structure PolicyDb where
  cluster_policies : List (String × List PolicyAssoc) := []
  policies : List (String × Policy) := []
deriving DecidableEq, Repr

def PolicyDb.get_policies (db : PolicyDb) (cid : String) : List PolicyAssoc :=
  (List.lookup cid db.cluster_policies).getD []

def PolicyDb.load (db : PolicyDb) (pid : String) : Option Policy :=
  List.lookup pid db.policies

/-- Embeds the while loop of Action.policy_check (action.py 278-308) with an
explicit fuel bound (the source loop has no retry cap). The hook calls in
the BEFORE and AFTER branches pass self.cluster_id as their first argument
(282/286) even though cluster_id is a parameter of policy_check; the
receiver's cluster_id attribute is threaded as self_cluster_id (only
PolicyAction instances have it), and evaluating the hook argument raises
AttributeError when it is absent, before the hook runs. Also accumulates
the policy ids in hook-invocation order. Per the source: a fail result
aborts the whole loop, a retry result moves the policy from the head to the
tail of the pending list, a succeed result drops it. -/
def policyCheckLoop (phase : String) (self_cluster_id : Option String) :
    Nat → List Policy → CheckData → List String →
    Option (Except PyErr CheckResult × List String)
  | _, [], data, trace => some (.ok (.ok data), trace)
  | 0, _ :: _, _, _ => none
  | fuel + 1, p :: rest, data, trace =>
    if (phase == "BEFORE" || phase == "AFTER") && self_cluster_id.isNone then
      some (.error (.attributeError "cluster_id"), trace)
    else
      let step := p.invoke phase data
      if step.1.result = .fail then some (.ok .failed, trace ++ [p.id])
      else if step.1.result = .retry then
        policyCheckLoop phase self_cluster_id fuel (rest ++ [step.2]) step.1
          (trace ++ [p.id])
      else
        policyCheckLoop phase self_cluster_id fuel rest step.1
          (trace ++ [p.id])

/-- Embeds Action.policy_check (action.py 252-308): seed the data dict with a
success marker, collect the enabled attached policies whose TARGET set
contains the (phase, operation) pair, return the seeded data at once when
none match, otherwise run the FIFO check loop (which evaluates the
receiver's cluster_id attribute, given as self_cluster_id, before each
hook). The second component is the list of policy ids in hook-invocation
order (empty means no hook ran). -/
def matchedPolicies (db : PolicyDb) (cluster_id : String)
    (target : String × String) : List Policy :=
  ((((db.get_policies cluster_id).filter (fun p => p.enabled)).map
      (fun p => p.policy_id)).filterMap db.load).filter
    (fun p => p.TARGET.contains target)

def Action.policy_check (self_cluster_id : Option String) (db : PolicyDb)
    (cluster_id : String) (target : String × String) (fuel : Nat) :
    Option (Except PyErr CheckResult × List String) :=
  let data : CheckData := { result := .succeed }
  let policy_check_list := matchedPolicies db cluster_id target
  if policy_check_list.isEmpty then some (.ok (.ok data), [])
  else policyCheckLoop target.1 self_cluster_id fuel policy_check_list data []

/-- Calls a cluster-action handler makes against its collaborators, recorded
in program order. -/
inductive Ev where
  | lock_create (cluster_id action_id returned : String)
  | lock_release (cluster_id action_id : String)
  | hook (policy_id : String)
  | node_store (node_id : String)
  | action_store (action_id : String)
  | add_dependency (child parent : String)
  | notify (action_id : String)
  | cluster_set_status (status reason : String)
  | cluster_do_create (ok : Bool)
  | cluster_do_update (profile_id : String) (ok : Bool)
  | cluster_do_delete
  | cancel_action (action_id : String)
  | cancel_update_rollback
deriving DecidableEq, Repr

/-- The lock table plus the event trace threaded through a handler run. -/
structure EngineSt where
  locks : List (String × String) := []
  events : List Ev := []
deriving DecidableEq, Repr

def EngineSt.emit (st : EngineSt) (e : Ev) : EngineSt :=
  { st with events := st.events ++ [e] }

def EngineSt.emitAll (st : EngineSt) (es : List Ev) : EngineSt :=
  { st with events := st.events ++ es }

/-- Modelled from the spec: db_api.cluster_lock_create (senlin.db.api is not
under src/). Per the spec the lock row is created atomically with the
requesting action as holder when absent, and the call returns the current
holder either way. -/
def EngineSt.lock_create (st : EngineSt) (cid aid : String) :
    String × EngineSt :=
  match List.lookup cid st.locks with
  | some holder => (holder, st.emit (.lock_create cid aid holder))
  | none =>
    (aid, { locks := st.locks ++ [(cid, aid)],
            events := st.events ++ [.lock_create cid aid aid] })

/-- Modelled from the spec: db_api.cluster_lock_release removes the lock row
the given action holds. -/
def EngineSt.lock_release (st : EngineSt) (cid aid : String) : EngineSt :=
  { locks := st.locks.filter (fun e => !(e.1 == cid && e.2 == aid)),
    events := st.events ++ [.lock_release cid aid] }

def EngineSt.emitHooks (st : EngineSt) (pids : List String) : EngineSt :=
  st.emitAll (pids.map Ev.hook)

/-- The cluster entity as the handlers read it: identity, profile, desired
size and current member node ids (the node table rows for the cluster). -/
structure Cluster where
  id : String
  profile_id : String := ""
  size : Nat := 0
  nodes : List String := []
deriving DecidableEq, Repr

/-- Oracles for the cooperative wait loops: the action status re-read from
the store each iteration, and the scheduler's cancellation and timeout
checks (external collaborators). -/
structure WaitOracle where
  status : Nat → String
  cancelled : Nat → Bool
  timed_out : Nat → Bool

inductive WaitExit where
  | ready
  | cancelled
  | timeout
deriving DecidableEq, Repr

/-- Embeds the wait loops of do_create / do_update / do_delete: poll the own
status until READY, checking cancellation first and timeout second on every
iteration; fuel bounds the unbounded source loop. -/
def waitCancelTimeout (o : WaitOracle) : Nat → Nat → Option WaitExit
  | 0, _ => none
  | fuel + 1, k =>
    if o.status k == Action.READY then some .ready
    else if o.cancelled k then some .cancelled
    else if o.timed_out k then some .timeout
    else waitCancelTimeout o fuel (k + 1)

/-- The outcome of a handler run: a normal return with an outcome code, a
propagated exception, or fuel exhaustion of a wait loop. -/
inductive HandlerOut where
  | ret (code : String) (st : EngineSt)
  | raised (e : PyErr) (st : EngineSt)
  | spin
deriving DecidableEq, Repr

def HandlerOut.events : HandlerOut → List Ev
  | .ret _ st => st.events
  | .raised _ st => st.events
  | .spin => []

/-- Embeds ClusterAction.do_create (action.py 358-428). newNodeIds and
newActionIds are the store-assigned identifiers. With at least one child to
spawn, the first loop iteration (378-395) stores the node, stores the child
action and registers the dependency edge, and then the
action.set_status(self.READY) call at 395 raises
AttributeError("CANCELLED") — READY matches neither SUCCEEDED nor FAILED,
so set_status reads the missing self.CANCELLED attribute (see
ActionRec.set_status) — aborting the handler before any dispatcher
notification. Only a size-0 cluster reaches the wait loop. -/
def ClusterAction.do_create (self : ActionRec) (cluster : Cluster)
    (createOk : Bool) (st : EngineSt) (o : WaitOracle)
    (newNodeIds newActionIds : Nat → String) (fuel : Nat) : HandlerOut :=
  let acq := st.lock_create cluster.id self.id
  if acq.1 ≠ self.id then
    .raised (.engineError "Cluster is already locked") acq.2
  else
    let st := (acq.2).emit (.cluster_do_create createOk)
    if ¬ createOk then
      let st := st.emit (.cluster_set_status "ERROR" "Cluster creation failed")
      .ret Action.RES_ERROR (st.lock_release cluster.id self.id)
    else
      match cluster.size with
      | _ + 1 =>
        .raised (.attributeError "CANCELLED")
          (st.emitAll [.node_store (newNodeIds 0),
                       .action_store (newActionIds 0),
                       .add_dependency (newActionIds 0) self.id])
      | 0 =>
        match waitCancelTimeout o fuel 0 with
        | none => .spin
        | some .cancelled =>
          let st := st.emit (.cluster_set_status "ERROR"
            "Cluster creation cancelled")
          .ret Action.RES_CANCEL (st.lock_release cluster.id self.id)
        | some .timeout =>
          let st := st.emit (.cluster_set_status "ERROR"
            "Cluster creating timeout")
          .ret Action.RES_TIMEOUT (st.lock_release cluster.id self.id)
        | some .ready =>
          let st := st.emit (.cluster_set_status "ACTIVE"
            "Cluster creation completed")
          .ret Action.RES_OK (st.lock_release cluster.id self.id)

/-- Embeds ClusterAction.do_update (action.py 430-505). With at least one
member node, the spawn loop constructs the first child (never storing it)
and then the action.set_status(self.READY) call at 467 raises
AttributeError("CANCELLED") (see ActionRec.set_status) — before the
dependency registration at 471 and before any dispatcher notification.
Only a cluster without nodes reaches the wait loop, whose cancel path runs
the best-effort rollback _cancel_update (action.py 507-550), collapsed to
one event followed by its final cluster status write and lock release. -/
def ClusterAction.do_update (self : ActionRec) (cluster : Cluster)
    (new_profile_id : String) (updateOk : Bool) (st : EngineSt)
    (o : WaitOracle) (fuel : Nat) : HandlerOut :=
  let acq := st.lock_create cluster.id self.id
  if acq.1 ≠ self.id then .ret Action.RES_CANCEL acq.2
  else
    let st := (acq.2).emit (.cluster_do_update new_profile_id updateOk)
    if ¬ updateOk then
      let st := st.emit (.cluster_set_status "ACTIVE"
        "Cluster updating was not executed")
      .ret Action.RES_ERROR (st.lock_release cluster.id self.id)
    else
      match cluster.nodes with
      | _ :: _ => .raised (.attributeError "CANCELLED") st
      | [] =>
        match waitCancelTimeout o fuel 0 with
        | none => .spin
        | some .cancelled =>
          let st := (st.emit .cancel_update_rollback).emit
            (.cluster_set_status "UPDATE_CANCELLED" "")
          .ret Action.RES_CANCEL (st.lock_release cluster.id self.id)
        | some .timeout =>
          let st := st.emit (.cluster_set_status "ERROR"
            "cluster updating timeout")
          .ret Action.RES_TIMEOUT (st.lock_release cluster.id self.id)
        | some .ready =>
          let st := st.emit (.cluster_set_status "ACTIVE"
            "Cluster updating completed")
          .ret Action.RES_OK (st.lock_release cluster.id self.id)

/-- The lock-acquisition poll of do_delete (action.py 562-571): re-attempt
the lock each iteration, returning TIMEOUT when the deadline elapses first.
In this closed model no concurrent release occurs, so the holder can only
change if it was this action already. -/
inductive LockPhase where
  | acquired (st : EngineSt)
  | timedOut (st : EngineSt)
  | spin
deriving DecidableEq, Repr

def deleteAcquireLoop (o : WaitOracle) (cid aid : String) :
    Nat → Nat → EngineSt → LockPhase
  | 0, _, _ => .spin
  | fuel + 1, k, st =>
    let acq := st.lock_create cid aid
    if acq.1 == aid then .acquired acq.2
    else if o.timed_out k then .timedOut acq.2
    else deleteAcquireLoop o cid aid fuel (k + 1) acq.2

/-- Embeds ClusterAction.do_delete (action.py 552-624). With at least one
member node, the spawn loop constructs the first child (never storing it)
and then the action.set_status(self.READY) call at 584 raises
AttributeError("CANCELLED") (see ActionRec.set_status) — before the
dependency registration at 587 and before any dispatcher notification.
Only a cluster without nodes reaches the wait loop. -/
def ClusterAction.do_delete (self : ActionRec) (cluster : Cluster)
    (st : EngineSt) (o : WaitOracle) (fuel : Nat) : HandlerOut :=
  let st := st.emit (.cluster_set_status "DELETING" "")
  let acq := st.lock_create cluster.id self.id
  let phase :=
    if acq.1 == self.id then LockPhase.acquired acq.2
    else deleteAcquireLoop o cluster.id self.id fuel 0
      ((acq.2).emit (.cancel_action acq.1))
  match phase with
  | .spin => .spin
  | .timedOut st =>
    let st := st.emit (.cluster_set_status "ERROR"
      "Cluster deletion timed out waiting")
    .ret Action.RES_TIMEOUT st
  | .acquired st =>
    match cluster.nodes with
    | _ :: _ => .raised (.attributeError "CANCELLED") st
    | [] =>
      match waitCancelTimeout o fuel 0 with
      | none => .spin
      | some .cancelled =>
        let st := st.emit (.cluster_set_status "ERROR"
          "Cluster deleting cancelled")
        .ret Action.RES_CANCEL (st.lock_release cluster.id self.id)
      | some .timeout =>
        let st := st.emit (.cluster_set_status "ERROR"
          "Cluster deletion timed out")
        .ret Action.RES_TIMEOUT (st.lock_release cluster.id self.id)
      | some .ready =>
        let st := st.emit .cluster_do_delete
        .ret Action.RES_OK (st.lock_release cluster.id self.id)

/-- Embeds ClusterAction.do_scale_down (action.py 635-722). The receiver is a
ClusterAction, which has no cluster_id attribute, so the BEFORE check is
invoked with self_cluster_id none: any matched policy makes the pipeline
raise AttributeError("cluster_id") before its hook runs. Should the count
check ever be passed with no candidates, the node fetch at 661 reads the
same missing self.cluster_id attribute and raises; with policy-supplied
candidates, the spawn loop (674-686) stores and links the first child and
then its set_status(self.READY) call raises AttributeError("CANCELLED")
(see ActionRec.set_status). Every path past a non-zero count therefore
raises, so the random selection (666-671), the wait loop, the membership
update and the AFTER check (695-722) are unreachable. -/
def ClusterAction.do_scale_down (self : ActionRec) (cluster : Cluster)
    (pdb : PolicyDb) (st : EngineSt) (newActionIds : Nat → String)
    (fuel : Nat) : Option HandlerOut :=
  let acq := st.lock_create cluster.id self.id
  if acq.1 ≠ self.id then some (.ret Action.RES_RETRY acq.2)
  else
    match Action.policy_check none pdb cluster.id ("BEFORE", self.action)
        fuel with
    | none => none
    | some (.error e, tr) => some (.raised e ((acq.2).emitHooks tr))
    | some (.ok .failed, tr) =>
      let st := (acq.2).emitHooks tr
      some (.ret Action.RES_ERROR (st.lock_release cluster.id self.id))
    | some (.ok (.ok data), tr) =>
      let st := (acq.2).emitHooks tr
      let count := data.count.getD 0
      if count = 0 then some (.ret Action.RES_ERROR st)
      else if data.candidates.isEmpty then
        some (.raised (.attributeError "cluster_id") st)
      else
        let aid := newActionIds 0
        some (.raised (.attributeError "CANCELLED")
          (st.emitAll [.action_store aid, .add_dependency aid self.id]))

/-- Embeds the existing-association scan of do_attach_policy
(action.py 731-740): an association with the requested policy id means
already attached (ok true); an association whose policy has the same type
but a different id raises PolicyExists; otherwise continue. -/
def attachScan (db : PolicyDb) (pid ptype : String) :
    List PolicyAssoc → Except PyErr Bool
  | [] => .ok false
  | e :: rest =>
    if e.policy_id == pid then .ok true
    else
      match db.load e.policy_id with
      | none => .error (.notFound e.policy_id)
      | some curr =>
        if curr.ptype == ptype then .error (.policyExists ptype)
        else attachScan db pid ptype rest

/-- Appends an association row to a cluster's association list
(db_api.cluster_attach_policy; modelled from the spec). -/
def addAssoc : List (String × List PolicyAssoc) → String → PolicyAssoc →
    List (String × List PolicyAssoc)
  | [], cid, a => [(cid, [a])]
  | (c, l) :: rest, cid, a =>
    if c == cid then (c, l ++ [a]) :: rest
    else (c, l) :: addAssoc rest cid a

def PolicyDb.attach (db : PolicyDb) (cid : String) (a : PolicyAssoc) :
    PolicyDb :=
  { db with cluster_policies := addAssoc db.cluster_policies cid a }

/-- Embeds ClusterAction.do_attach_policy (action.py 724-752). Returns the
result (or the raised exception), the association table after the call,
and the cluster's runtime policy list (cluster.rt.policies) after the
call; a raising path leaves both unchanged. -/
def ClusterAction.do_attach_policy (inputs : Inputs) (cluster_id : String)
    (db : PolicyDb) (rt : List Policy) :
    Except PyErr String × PolicyDb × List Policy :=
  match inputs.get "policy_id" with
  | .str pid =>
    if pid == "" then (.error .policyNotSpecified, db, rt)
    else
      match db.load pid with
      | none => (.error (.notFound pid), db, rt)
      | some policy =>
        match attachScan db pid policy.ptype (db.get_policies cluster_id) with
        | .error e => (.error e, db, rt)
        | .ok true => (.ok Action.RES_OK, db, rt)
        | .ok false =>
          let assoc : PolicyAssoc :=
            { policy_id := pid,
              cooldown := match List.lookup "cooldown" inputs with
                          | some (.nat n) => n
                          | _ => policy.cooldown,
              level := match List.lookup "level" inputs with
                       | some (.nat n) => n
                       | _ => policy.level,
              enabled := match List.lookup "enabled" inputs with
                         | some (.bool b) => b
                         | _ => true }
          (.ok Action.RES_OK, db.attach cluster_id assoc, rt ++ [policy])
  | _ => (.error .policyNotSpecified, db, rt)

/-- Modelled from the spec: the node collaborator (senlin.engine.node is not
under src/) exposes boolean-result operations do_create, do_delete,
do_update, do_join and do_leave. -/
structure NodeObj where
  create_ok : Bool := true
  delete_ok : Bool := true
  update_ok : Bool := true
  join_ok : Bool := true
  leave_ok : Bool := true
deriving DecidableEq, Repr

/-- A node-level operation invoked by NodeAction.execute, with the argument
it was given. -/
inductive NodeOp where
  | create
  | delete
  | update (profile : Val)
  | join (cluster : Val)
  | leave
deriving DecidableEq, Repr

def boolRes (b : Bool) : String :=
  if b then Action.RES_OK else Action.RES_ERROR

/-- Embeds NodeAction.execute (action.py 804-827). Returns the outcome (or
the raised exception) together with the node-level operations invoked, in
order; an error return invokes none. -/
def NodeAction.execute (self : ActionRec) (node : Option NodeObj) :
    Except PyErr String × List NodeOp :=
  match node with
  | none => (.error (.notFound self.target), [])
  | some node =>
    if self.action == "NODE_CREATE" then
      (.ok (boolRes node.create_ok), [.create])
    else if self.action == "NODE_DELETE" then
      (.ok (boolRes node.delete_ok), [.delete])
    else if self.action == "NODE_UPDATE" then
      (.ok (boolRes node.update_ok),
       [.update (self.inputs.get "new_profile_id")])
    else if self.action == "NODE_JOIN_CLUSTER" then
      let cid := self.inputs.get "cluster_id"
      if ¬ cid.truthy then (.error .clusterNotSpecified, [])
      else (.ok (boolRes node.join_ok), [.join cid])
    else if self.action == "NODE_LEAVE_CLUSTER" then
      (.ok (boolRes node.leave_ok), [.leave])
    else (.ok Action.RES_ERROR, [])

def isActionStore : Ev → Bool
  | .action_store _ => true
  | _ => false

def isNotify : Ev → Bool
  | .notify _ => true
  | _ => false

/-- A stored node-scoped action used by concrete runs. -/
def sampleAction : ActionRec :=
  { id := "A1", name := "node-create-000", context := ⟨"admin"⟩,
    description := "", target := "n1", action := "NODE_CREATE", cause := "",
    owner := none, interval := -1, start_time := none, end_time := none,
    timeout := 3600, status := "READY", status_reason := "", inputs := [],
    outputs := [], depends_on := [], depended_by := [], deleted_time := none }

/-- A NODE_JOIN_CLUSTER action whose inputs lack a cluster_id entry. -/
def joinNodeAction : ActionRec :=
  { sampleAction with id := "A2", action := "NODE_JOIN_CLUSTER" }

/-- The parent CLUSTER_SCALE_DOWN action of the concrete scale-down runs. -/
def scaleAction : ActionRec :=
  { sampleAction with id := "SA", action := "CLUSTER_SCALE_DOWN",
                      target := "c1" }

def createParent : ActionRec :=
  { sampleAction with id := "CA", action := "CLUSTER_CREATE", target := "c1" }

def updateParent : ActionRec :=
  { sampleAction with id := "UA", action := "CLUSTER_UPDATE", target := "c1" }

def deleteParent : ActionRec :=
  { sampleAction with id := "DA", action := "CLUSTER_DELETE", target := "c1" }

/-- A cluster with four member nodes. -/
def cluster4 : Cluster :=
  { id := "c1", profile_id := "p1", size := 4,
    nodes := ["n0", "n1", "n2", "n3"] }

/-- A wait oracle whose action status is READY from the first poll and whose
scheduler reports neither cancellation nor timeout. -/
def readyOracle : WaitOracle :=
  { status := fun _ => "READY", cancelled := fun _ => false,
    timed_out := fun _ => false }

/-- The concrete scale-down run behind the lock-leak counterexample: the lock
is free and the cluster has no attached policy, so the BEFORE check
immediately returns the seeded success data — before the loop, hence
before any self.cluster_id read — and the data carries no count. -/
def zeroCountRun : Option HandlerOut :=
  ClusterAction.do_scale_down scaleAction cluster4 {} {}
    (fun i => "del" ++ Nat.repr i) 5

/-- A scaling policy whose BEFORE hook approves the operation and supplies a
removal count of 2 with no explicit candidates. -/
def scalePolicy : Policy :=
  { id := "SP", ptype := "ScalingPolicy",
    TARGET := [("BEFORE", "CLUSTER_SCALE_DOWN")],
    pre_script := [{ result := .succeed, count := some 2 }] }

def scalePdb : PolicyDb :=
  { cluster_policies := [("c1", [{ policy_id := "SP", enabled := true }])],
    policies := [("SP", scalePolicy)] }

/-- The concrete scale-down run with the scaling policy attached: the policy
matches the BEFORE target, so the pipeline reads the receiver's missing
cluster_id attribute before the policy's hook can supply the count. -/
def scaleRun : Option HandlerOut :=
  ClusterAction.do_scale_down scaleAction cluster4 scalePdb {}
    (fun i => "del" ++ Nat.repr i) 5

/-- A concrete do_create run: desired size 2, provisioning succeeds, children
complete immediately. -/
def createRun : HandlerOut :=
  ClusterAction.do_create createParent
    ({ id := "c1", profile_id := "p1", size := 2 } : Cluster) true {}
    readyOracle (fun m => "nd" ++ Nat.repr m) (fun m => "na" ++ Nat.repr m) 5

/-- A concrete do_update run over a one-node cluster. -/
def updateRun : HandlerOut :=
  ClusterAction.do_update updateParent
    ({ id := "c1", nodes := ["N1"] } : Cluster) "p2" true {} readyOracle 5

/-- A concrete do_delete run over a one-node cluster with a free lock. -/
def deleteRun : HandlerOut :=
  ClusterAction.do_delete deleteParent
    ({ id := "c1", nodes := ["N1"] } : Cluster) {} readyOracle 5

/-- Policies A, B, C for the FIFO-requeue scena: B's BEFORE hook asks for a
retry on its first evaluation and succeeds on its second; A and C succeed
at once. -/
def policyA : Policy :=
  { id := "A", ptype := "TA", TARGET := [("BEFORE", "OP")],
    pre_script := [{ result := .succeed }] }

def policyB : Policy :=
  { id := "B", ptype := "TB", TARGET := [("BEFORE", "OP")],
    pre_script := [{ result := .retry }, { result := .succeed }] }

def policyC : Policy :=
  { id := "C", ptype := "TC", TARGET := [("BEFORE", "OP")],
    pre_script := [{ result := .succeed }] }

def abcPdb : PolicyDb :=
  { cluster_policies := [("c1",
      [{ policy_id := "A", enabled := true },
       { policy_id := "B", enabled := true },
       { policy_id := "C", enabled := true }])],
    policies := [("A", policyA), ("B", policyB), ("C", policyC)] }

/-- The association table behind the attach-policy conflict witness: policy X
of type T is attached to cluster c1, and policy P of the same type T is the
one being attached. -/
def attachPdb : PolicyDb :=
  { cluster_policies := [("c1", [{ policy_id := "X", enabled := true }])],
    policies := [("X", { id := "X", ptype := "T" }),
                 ("P", { id := "P", ptype := "T" })] }

/-- Helper: on any subtype verb set, construction fed a serialized context
dict (instead of a live RequestContext) stops with AttributeError on the
to_dict call, provided the verb check passes first. -/
theorem init_on_serialized_context (A : List String) (d : CtxDict)
    (v : String) (kwargs : ActionKwargs) (h : v ∈ A) :
    Action.init A (.dict d) v kwargs = .error (.attributeError "to_dict") := by
  simp [Action.init, h, CtxVal.to_dict_call]

/-- Helper: the same for the PolicyAction constructor, whose extra checks sit
after the base constructor. -/
theorem policy_init_on_serialized_context (d : CtxDict) (v : String)
    (kwargs : ActionKwargs) (h : v ∈ PolicyAction.ACTIONS) :
    PolicyAction.init (.dict d) v kwargs =
      .error (.attributeError "to_dict") := by
  simp [PolicyAction.init, init_on_serialized_context _ _ _ _ h]

/-- C2: for every action subtype and every verb outside the subtype's ACTIONS
set, construction never completes; but instead of the unsupported-action
error the claims expect, the constructor raises AttributeError("target"),
because the ActionNotSupported message formats self.target before that
attribute is ever assigned (action.py 76-78 versus 87). -/
theorem c2_out_of_set_verb_raises_attribute_error (v : String) (ctx : CtxVal)
    (kwargs : ActionKwargs) :
    (v ∉ ClusterAction.ACTIONS →
      ClusterAction.init ctx v kwargs = .error (.attributeError "target")) ∧
    (v ∉ NodeAction.ACTIONS →
      NodeAction.init ctx v kwargs = .error (.attributeError "target")) ∧
    (v ∉ PolicyAction.ACTIONS →
      PolicyAction.init ctx v kwargs = .error (.attributeError "target")) ∧
    (v ∉ CustomAction.ACTIONS →
      CustomAction.init ctx v kwargs = .error (.attributeError "target")) := by
  refine ⟨fun h => ?_, fun h => ?_, fun h => ?_, fun h => ?_⟩ <;>
    simp [ClusterAction.init, NodeAction.init, PolicyAction.init,
          CustomAction.init, Action.init, h]

/-- Witness for C2: constructing a NodeAction with the cluster verb
CLUSTER_CREATE raises AttributeError("target"). -/
theorem c2_witness :
    NodeAction.init (.obj ⟨"admin"⟩) "CLUSTER_CREATE" {} =
      .error (.attributeError "target") :=
  (c2_out_of_set_verb_raises_attribute_error "CLUSTER_CREATE"
    (.obj ⟨"admin"⟩) {}).2.1 (by decide)

/-- C6: deserializing the output of serialization does not reproduce the
action: from_dict forwards the serialized context (a plain dict) to the
constructor, which calls .to_dict() on it (action.py 82), so the round trip
raises AttributeError("to_dict") for every well-formed action. -/
theorem c6_round_trip_crashes_on_context (a : ActionRec)
    (h : a.action ∈ Action.subtype_actions a.action) :
    Action.from_dict a.to_dict = .error (.attributeError "to_dict") := by
  unfold Action.subtype_actions at h
  unfold Action.from_dict Action.make ActionRec.to_dict
  simp only []
  split_ifs at h ⊢ with h1 h2 h3
  · exact init_on_serialized_context _ _ _ _ h
  · exact init_on_serialized_context _ _ _ _ h
  · exact policy_init_on_serialized_context _ _ _ h
  · exact init_on_serialized_context _ _ _ _ h

/-- Witness for C6: the round trip on a concrete NODE_CREATE action raises
AttributeError("to_dict"). -/
theorem c6_witness :
    Action.from_dict sampleAction.to_dict =
      .error (.attributeError "to_dict") :=
  c6_round_trip_crashes_on_context sampleAction (by decide)

/-- C7: set_status updates the field and persists the outcome for SUCCEEDED
and FAILED, but for every other status value — including the terminal
status CANCELLED itself and every non-terminal status — the call raises
AttributeError("CANCELLED"), because the elif reads self.CANCELLED while
the class attribute is spelled CANCELED (action.py 49-55 versus 242);
the status field is not updated on that path. -/
theorem c7_set_status_attribute_slip (a : ActionRec) (s : String)
    (h1 : s ≠ Action.SUCCEEDED) (h2 : s ≠ Action.FAILED) :
    a.set_status Action.SUCCEEDED =
      .ok ({ a with status := Action.SUCCEEDED }, [.mark_succeeded a.id]) ∧
    a.set_status Action.FAILED =
      .ok ({ a with status := Action.FAILED }, [.mark_failed a.id]) ∧
    a.set_status s = .error (.attributeError "CANCELLED") := by
  simp only [Action.SUCCEEDED, Action.FAILED] at h1 h2
  refine ⟨?_, ?_, ?_⟩ <;>
    simp [ActionRec.set_status, Action.SUCCEEDED, Action.FAILED,
          beq_iff_eq, h1, h2]

/-- Witness for C7: set_status("CANCELLED") itself raises
AttributeError("CANCELLED") instead of marking the action cancelled. -/
theorem c7_witness :
    sampleAction.set_status "CANCELLED" =
      .error (.attributeError "CANCELLED") :=
  (c7_set_status_attribute_slip sampleAction "CANCELLED"
    (by decide) (by decide)).2.2

/-- C1: the scoped-release discipline is violated by do_scale_down: when the
BEFORE policy check succeeds but yields no removal count (count == 0, e.g.
a cluster with no attached policy), the handler returns ERROR while the
cluster lock it acquired is still held — its trace records the successful
lock acquisition and no release, and the final lock table still maps the
cluster to this action (action.py 651-653, missing the release the
adjacent branch at 646-649 performs). -/
theorem c1_scale_down_returns_error_with_lock_held :
    zeroCountRun = some (.ret Action.RES_ERROR
      { locks := [("c1", "SA")],
        events := [.lock_create "c1" "SA" "SA"] }) := by
  decide

/-- C3: the claimed persist-and-link-before-notify protocol never executes:
with at least one child to spawn, do_create raises
AttributeError("CANCELLED") at the first child's set_status(READY) call
(action.py 395) after storing and linking that child, while do_update (467)
and do_delete (584) raise there before even the dependency registration and
without ever storing the child (no action.store call exists in their spawn
loops); no handler reaches its dispatcher notification loop, so the traces
contain no notify event at all — and for update/delete no store and no
dependency edge either. -/
theorem c3_spawn_crashes_before_any_notify :
    createRun = .raised (.attributeError "CANCELLED")
      { locks := [("c1", "CA")],
        events := [.lock_create "c1" "CA" "CA", .cluster_do_create true,
                   .node_store "nd0", .action_store "na0",
                   .add_dependency "na0" "CA"] } ∧
    updateRun = .raised (.attributeError "CANCELLED")
      { locks := [("c1", "UA")],
        events := [.lock_create "c1" "UA" "UA",
                   .cluster_do_update "p2" true] } ∧
    deleteRun = .raised (.attributeError "CANCELLED")
      { locks := [("c1", "DA")],
        events := [.cluster_set_status "DELETING" "",
                   .lock_create "c1" "DA" "DA"] } ∧
    createRun.events.filter isNotify = [] ∧
    updateRun.events.filter isNotify = [] ∧
    deleteRun.events.filter isNotify = [] ∧
    updateRun.events.filter isActionStore = [] ∧
    deleteRun.events.filter isActionStore = [] := by
  decide

/-- C4: the FIFO fail/retry/succeed discipline never executes in the program:
the loop body passes self.cluster_id to the hooks (action.py 282/286), an
attribute the ClusterAction receivers that invoke the pipeline lack, so
with at least one matched policy the check raises
AttributeError("cluster_id") before the first hook runs — the invocation
trace is empty. With the attribute present (as on a receiver constructed
by PolicyAction.__init__), the same loop does produce the claimed
behaviour: in the A, B, C run where B retries once and then succeeds, the
hooks fire in the order A, B, C, B. -/
theorem c4_policy_check_crashes_before_first_hook :
    Action.policy_check none abcPdb "c1" ("BEFORE", "OP") 10 =
      some (.error (.attributeError "cluster_id"), []) ∧
    Action.policy_check (some "c1") abcPdb "c1" ("BEFORE", "OP") 10 =
      some (.ok (.ok { result := .succeed }), ["A", "B", "C", "B"]) := by
  decide

/-- C5: the claimed random selection never happens: at the stated input (four
members, an attached scaling policy meant to supply a removal count of 2,
no explicit candidates) the BEFORE check raises
AttributeError("cluster_id") (action.py 282) before the count-supplying
hook is invoked, so the run aborts with the acquired lock as its only
event — no hook, no candidate selection, no NODE_DELETE child. The
selection loop at 666-671 sits behind a further read of the same missing
attribute (the node fetch at 661) and is unreachable. -/
theorem c5_scale_down_crashes_before_selection :
    scaleRun = some (.raised (.attributeError "cluster_id")
      { locks := [("c1", "SA")],
        events := [.lock_create "c1" "SA" "SA"] }) ∧
    scaleRun.map (fun h => h.events.filter isActionStore) = some [] := by
  decide

/-- Helper: the existing-association scan raises PolicyExists when the
requested policy id is attached to no row but some row's policy has the
same type. -/
theorem attachScan_conflict (db : PolicyDb) (pid ptype : String)
    (l : List PolicyAssoc)
    (hnot : ∀ e ∈ l, e.policy_id ≠ pid)
    (hload : ∀ e ∈ l, (db.load e.policy_id).isSome = true)
    (hconf : ∃ e ∈ l,
      (db.load e.policy_id).any (fun q => q.ptype == ptype) = true) :
    attachScan db pid ptype l = .error (.policyExists ptype) := by
  induction l with
  | nil => simp at hconf
  | cons e rest ih =>
    have hne : e.policy_id ≠ pid := hnot e (by simp)
    obtain ⟨q, hq⟩ := Option.isSome_iff_exists.mp (hload e (by simp))
    by_cases htyp : q.ptype = ptype
    · simp [attachScan, beq_iff_eq, hne, hq, htyp]
    · have step : attachScan db pid ptype (e :: rest) =
          attachScan db pid ptype rest := by
        simp [attachScan, beq_iff_eq, hne, hq, htyp]
      rw [step]
      apply ih (fun x hx => hnot x (by simp [hx]))
        (fun x hx => hload x (by simp [hx]))
      rcases hconf with ⟨x, hx, hxa⟩
      rcases List.mem_cons.mp hx with rfl | hx2
      · rw [hq] at hxa
        simp [beq_iff_eq] at hxa
        exact absurd hxa htyp
      · exact ⟨x, hx2, hxa⟩

/-- Helper: the scan returns ok true (already attached, no-op) when some row
carries the requested policy id and every other row's policy has a
different type. -/
theorem attachScan_noop (db : PolicyDb) (pid ptype : String)
    (l : List PolicyAssoc)
    (hmem : ∃ e ∈ l, e.policy_id = pid)
    (hload : ∀ e ∈ l, e.policy_id ≠ pid →
      (db.load e.policy_id).isSome = true)
    (hother : ∀ e ∈ l, e.policy_id ≠ pid →
      (db.load e.policy_id).all (fun q => !(q.ptype == ptype)) = true) :
    attachScan db pid ptype l = .ok true := by
  induction l with
  | nil => simp at hmem
  | cons e rest ih =>
    by_cases he : e.policy_id = pid
    · simp [attachScan, beq_iff_eq, he]
    · obtain ⟨q, hq⟩ := Option.isSome_iff_exists.mp (hload e (by simp) he)
      have hall := hother e (by simp) he
      rw [hq] at hall
      simp [beq_iff_eq] at hall
      have step : attachScan db pid ptype (e :: rest) =
          attachScan db pid ptype rest := by
        simp [attachScan, beq_iff_eq, he, hq, hall]
      rw [step]
      apply ih ?_ (fun x hx => hload x (by simp [hx]))
        (fun x hx => hother x (by simp [hx]))
      rcases hmem with ⟨x, hx, hxp⟩
      rcases List.mem_cons.mp hx with rfl | hx2
      · exact absurd hxp he
      · exact ⟨x, hx2, hxp⟩

/-- C8: attaching a policy whose type is already attached under a different
policy id raises PolicyExists and leaves both the association table and
the cluster's runtime policy list unchanged; attaching a policy id that is
already attached (no other row of the same type) returns OK as a no-op
with both likewise unchanged (action.py 724-752). -/
theorem c8_attach_policy_conflict_and_noop (inputs : Inputs)
    (cid pid : String) (db : PolicyDb) (rt : List Policy) (policy : Policy)
    (hin : inputs.get "policy_id" = .str pid) (hpid : pid ≠ "")
    (hload : db.load pid = some policy) :
    ((∀ e ∈ db.get_policies cid, e.policy_id ≠ pid) →
     (∀ e ∈ db.get_policies cid, (db.load e.policy_id).isSome = true) →
     (∃ e ∈ db.get_policies cid,
        (db.load e.policy_id).any (fun q => q.ptype == policy.ptype) = true) →
     ClusterAction.do_attach_policy inputs cid db rt =
       (.error (.policyExists policy.ptype), db, rt)) ∧
    ((∃ e ∈ db.get_policies cid, e.policy_id = pid) →
     (∀ e ∈ db.get_policies cid, e.policy_id ≠ pid →
        (db.load e.policy_id).isSome = true) →
     (∀ e ∈ db.get_policies cid, e.policy_id ≠ pid →
        (db.load e.policy_id).all
          (fun q => !(q.ptype == policy.ptype)) = true) →
     ClusterAction.do_attach_policy inputs cid db rt =
       (.ok Action.RES_OK, db, rt)) := by
  constructor
  · intro h1 h2 h3
    simp [ClusterAction.do_attach_policy, hin, beq_iff_eq, hpid, hload,
          attachScan_conflict db pid policy.ptype _ h1 h2 h3]
  · intro h1 h2 h3
    simp [ClusterAction.do_attach_policy, hin, beq_iff_eq, hpid, hload,
          attachScan_noop db pid policy.ptype _ h1 h2 h3]

/-- Witness for C8: attaching policy P of type T to a cluster that already
has policy X of type T raises PolicyExists and mutates nothing. -/
theorem c8_witness :
    ClusterAction.do_attach_policy [("policy_id", .str "P")] "c1"
      attachPdb [] = (.error (.policyExists "T"), attachPdb, []) :=
  (c8_attach_policy_conflict_and_noop [("policy_id", .str "P")] "c1" "P"
    attachPdb [] ({ id := "P", ptype := "T" }) (by decide) (by decide)
    (by decide)).1 (by decide) (by decide) (by decide)

/-- C9: when no enabled attached policy of the cluster declares the
(phase, operation) pair among its targets, policy_check returns the seeded
success data at once — before the loop, hence before the receiver's
cluster_id attribute is ever read, for any receiver — and no policy hook
is invoked (the hook-invocation trace is empty); the check reads but never
writes any state (action.py 252-276). -/
theorem c9_policy_check_no_match_trivial (scid : Option String)
    (db : PolicyDb) (cid : String) (target : String × String) (fuel : Nat)
    (h : ∀ e ∈ db.get_policies cid, e.enabled = true →
      (db.load e.policy_id).all
        (fun p => !(p.TARGET.contains target)) = true) :
    Action.policy_check scid db cid target fuel =
      some (.ok (.ok { result := .succeed }), []) := by
  have hnil : matchedPolicies db cid target = [] := by
    rw [matchedPolicies, List.filter_eq_nil_iff]
    intro p hp
    simp only [List.mem_filterMap, List.mem_map, List.mem_filter] at hp
    obtain ⟨pid, ⟨e, ⟨he, hen⟩, hpe⟩, hl⟩ := hp
    subst hpe
    have hap := h e he (by simpa using hen)
    rw [hl] at hap
    simpa using hap
  simp [Action.policy_check, hnil]

/-- Witness for C9: a cluster with no attached policies at all, on a
ClusterAction receiver (no cluster_id attribute). -/
theorem c9_witness :
    Action.policy_check none {} "c1" ("BEFORE", "CLUSTER_SCALE_DOWN") 3 =
      some (.ok (.ok { result := .succeed }), []) :=
  c9_policy_check_no_match_trivial none {} "c1"
    ("BEFORE", "CLUSTER_SCALE_DOWN") 3 (by decide)

/-- C10: executing a NodeAction with verb NODE_JOIN_CLUSTER whose inputs
carry no truthy cluster_id raises ClusterNotSpecified before any
node-level operation is invoked (the invocation list is empty), while
every other node verb completes with an outcome code regardless of that
input (action.py 804-827). -/
theorem c10_node_join_requires_cluster_id (self : ActionRec) (node : NodeObj)
    (hact : self.action = "NODE_JOIN_CLUSTER")
    (hmiss : (self.inputs.get "cluster_id").truthy = false) :
    NodeAction.execute self (some node) = (.error .clusterNotSpecified, []) ∧
    (∀ a : ActionRec, a.action = "NODE_CREATE" ∨ a.action = "NODE_DELETE" ∨
        a.action = "NODE_UPDATE" ∨ a.action = "NODE_LEAVE_CLUSTER" →
      ∃ code, (NodeAction.execute a (some node)).1 = .ok code) := by
  constructor
  · simp [NodeAction.execute, hact, hmiss]
  · rintro a (ha | ha | ha | ha)
    · exact ⟨boolRes node.create_ok, by simp [NodeAction.execute, ha]⟩
    · exact ⟨boolRes node.delete_ok, by simp [NodeAction.execute, ha]⟩
    · exact ⟨boolRes node.update_ok, by simp [NodeAction.execute, ha]⟩
    · exact ⟨boolRes node.leave_ok, by simp [NodeAction.execute, ha]⟩

/-- Witness for C10: a NODE_JOIN_CLUSTER action with empty inputs. -/
theorem c10_witness :
    NodeAction.execute joinNodeAction (some {}) =
      (.error .clusterNotSpecified, []) :=
  (c10_node_join_requires_cluster_id joinNodeAction {} (by decide)
    (by decide)).1

end Senlin
